import Mathlib

/-!
Verification of the shopping-cart ("bag") screen of the Extreme Fit storefront
app. The embedding follows `src/screens/CreateAccountPage.js` (the `BagScreen`
component): line items, quantity mutations, the derived subtotal / item count /
total, and the PayPal checkout flow with its web, native-unavailable and
native-loaded branches. Currency amounts are modelled as exact decimals (`ℚ`),
quantities as naturals.
-/

namespace ExtremeFit

/-- One product entry of the cart, mirroring the objects stored in the
`cartItems` state of `BagScreen` (fields `id`, `name`, `details`, `price`,
`quantity`). -/
structure LineItem where
  id : Nat
  name : String
  details : String
  price : ℚ
  quantity : Nat
deriving Repr, DecidableEq

/-- Flat shipping cost for all orders (`SHIPPING_COST = 15.00`). -/
def SHIPPING_COST : ℚ := 15.00

/-- The seed cart `BagScreen` starts with (the `useState` initializer). -/
def seedCartItems : List LineItem :=
  [ { id := 1, name := "Athletic Gear 1", details := "Size L - Black", price := 45.99, quantity := 2 },
    { id := 2, name := "Athletic Gear 2", details := "Size M - Red", price := 52.99, quantity := 1 },
    { id := 3, name := "Athletic Gear 3", details := "Size XL - Blue", price := 38.95, quantity := 3 } ]

/-- The per-item body of the `incrementQuantity` map:
`item.id === id ? { ...item, quantity: item.quantity + 1 } : item`. -/
def incStep (id : Nat) (item : LineItem) : LineItem :=
  if item.id = id then { item with quantity := item.quantity + 1 } else item

/-- Increase quantity of a cart item by 1 (`incrementQuantity`). -/
def incrementQuantity (id : Nat) (items : List LineItem) : List LineItem :=
  items.map (incStep id)

/-- The per-item body of the `decrementQuantity` map:
`item.id === id && item.quantity > 1 ? { ...item, quantity: item.quantity - 1 } : item`. -/
def decStep (id : Nat) (item : LineItem) : LineItem :=
  if item.id = id ∧ item.quantity > 1 then { item with quantity := item.quantity - 1 } else item

/-- Decrease quantity of a cart item by 1, minimum 1 (`decrementQuantity`). -/
def decrementQuantity (id : Nat) (items : List LineItem) : List LineItem :=
  items.map (decStep id)

/-- Emptying the cart: `setCartItems([])`, run after a successful payment. -/
def clearCart (_ : List LineItem) : List LineItem := []

/-- Derived subtotal, as computed in the `useMemo`:
`cartItems.reduce((sum, item) => sum + (item.price * item.quantity), 0)`. -/
def subtotal (items : List LineItem) : ℚ :=
  items.foldl (fun sum item => sum + item.price * (item.quantity : ℚ)) 0

/-- Derived count of items, as computed in the `useMemo`:
`cartItems.reduce((sum, item) => sum + item.quantity, 0)`. -/
def totalItems (items : List LineItem) : Nat :=
  items.foldl (fun sum item => sum + item.quantity) 0

/-- Total cost including shipping (`total = subtotal + SHIPPING_COST`). -/
def total (items : List LineItem) : ℚ :=
  subtotal items + SHIPPING_COST

/-- The runtime platform, as tested by `Platform.OS === 'web'`. -/
inductive Platform where
  | web
  | native
deriving Repr, DecidableEq

/-- Number of cents of a non-negative decimal amount, rounded to the nearest
cent with halves up: the truncating integer part of `q * 100 + 1 / 2`. -/
def roundedCents (q : ℚ) : Nat :=
  let r := q * 100 + 1 / 2
  (r.num / (r.den : ℤ)).toNat

/-- Embedding of JavaScript `Number.prototype.toFixed(2)` on the exact decimal
amounts occurring here (all non-negative): round to the nearest cent and print
with exactly two decimals. -/
def toFixed2 (q : ℚ) : String :=
  let cents := roundedCents q
  toString (cents / 100) ++ "." ++ (if cents % 100 < 10 then "0" else "") ++ toString (cents % 100)

/-- The object passed to `PayPal.payWithPayPal` (the `paymentData` literal). -/
structure PaymentData where
  amount : String
  currency : String
  description : String
  clientId : String
  environment : String
deriving Repr, DecidableEq

/-- Construction of `paymentData` from the cart visible at the moment
`handlePayPalPayment` runs: `amount: total.toFixed(2)`, `currency: 'USD'`,
`description` embedding `totalItems`, plus the fixed client id and sandbox
environment. -/
def paymentData (cart : List LineItem) : PaymentData :=
  { amount := toFixed2 (total cart)
    currency := "USD"
    description := "Extreme Fit - " ++ toString (totalItems cart) ++ " items"
    clientId := "AX5LCRqe63mpn5Iuk5dD6Z6E32Qn6skf2MdRRGmtDDPQwvKMdx76rqjSbYgISFz8L5fuR_sFGHmFy7fh"
    environment := "sandbox" }

/-- The payload of a resolved `payWithPayPal` promise; the success handler
reads `response.response.id`. -/
structure PayPalResponseBody where
  id : String
deriving Repr, DecidableEq

/-- A successful response of the PayPal capability, with its nested `response`
field as dereferenced by the success handler. -/
structure PayPalResponse where
  response : PayPalResponseBody
deriving Repr, DecidableEq

/-- User-facing outcome of one checkout attempt: the alerts shown by
`handlePayPalPayment`. `success` carries the transaction id when one exists
(the web demo branch has none). -/
inductive Outcome where
  | success (transactionId : Option String)
  | failure (reason : String)
  | unavailable
deriving Repr, DecidableEq

/-- The generic message of the `Payment Failed` alert in the `.catch` handler. -/
def genericFailureMessage : String :=
  "There was an error processing your payment. Please try again."

/-- What `handlePayPalPayment` does synchronously, before any promise
resolves: the web branch completes as a demo at once, the missing-capability
branch reports unavailability at once, and the native branch with the
capability loaded submits one `paymentData` and suspends. -/
inductive InitResult where
  | webDemo
  | unavailableNow
  | submitted (data : PaymentData)
deriving Repr, DecidableEq

/-- The synchronous part of `handlePayPalPayment`: first the
`Platform.OS === 'web'` early return, then the `!PayPal` early return, then
construction and submission of `paymentData` built from the current cart. -/
def initiateCheckout (platform : Platform) (paypalLoaded : Bool) (cart : List LineItem) : InitResult :=
  match platform, paypalLoaded with
  | .web, _ => .webDemo
  | .native, false => .unavailableNow
  | .native, true => .submitted (paymentData cart)

/-- The payment requests the capability receives during one call of
`handlePayPalPayment`: exactly the submission of the native-loaded branch,
nothing in the other branches. -/
def callSubmissions (platform : Platform) (paypalLoaded : Bool) (cart : List LineItem) : List PaymentData :=
  match initiateCheckout platform paypalLoaded cart with
  | .submitted d => [d]
  | _ => []

/-- Resolution of the suspended `payWithPayPal` promise against the cart
state current at resolution time: the `.then` handler surfaces the response
id and clears the cart, the `.catch` handler surfaces the generic failure
message and leaves the cart alone. -/
def resolvePayment (res : Except String PayPalResponse) (cart : List LineItem) : Outcome × List LineItem :=
  match res with
  | .ok r => (.success (some r.response.id), clearCart cart)
  | .error _ => (.failure genericFailureMessage, cart)

/-- One whole checkout attempt run to completion, parameterised by how the
capability would resolve: the web branch succeeds with no transaction id and
clears the cart, the missing-capability branch reports unavailability leaving
the cart alone, and the native-loaded branch defers to the resolution. -/
def completeCheckout (platform : Platform) (paypalLoaded : Bool)
    (res : Except String PayPalResponse) (cart : List LineItem) : Outcome × List LineItem :=
  match initiateCheckout platform paypalLoaded cart with
  | .webDemo => (.success none, clearCart cart)
  | .unavailableNow => (.unavailable, cart)
  | .submitted _ => resolvePayment res cart

/-- The state of the `BagScreen` host while attempts may be in flight: the
`cartItems` component state plus the pending `payWithPayPal` promises. The
component state holds nothing else — in particular no submitting flag. -/
structure BagScreenWorld where
  cartItems : List LineItem
  inFlight : List PaymentData
deriving Repr, DecidableEq

/-- Whether the checkout control refuses presses: the `TouchableOpacity`
wired to `handlePayPalPayment` carries no `disabled` prop and no state feeds
one, so it never does. -/
def checkoutControlDisabled (_ : BagScreenWorld) : Bool := false

/-- Effect of pressing the checkout button: `handlePayPalPayment` runs
unconditionally on the current cart; its native-loaded branch adds one more
pending submission regardless of how many are already in flight. -/
def pressCheckout (platform : Platform) (paypalLoaded : Bool) (w : BagScreenWorld) : BagScreenWorld :=
  match initiateCheckout platform paypalLoaded w.cartItems with
  | .webDemo => { w with cartItems := clearCart w.cartItems }
  | .unavailableNow => w
  | .submitted d => { w with inFlight := w.inFlight ++ [d] }

/-- A cart mutation the user can trigger while a payment is pending. -/
inductive CartOp where
  | inc (id : Nat)
  | dec (id : Nat)
deriving Repr, DecidableEq

/-- Apply one quantity mutation to the screen state; pending submissions are
plain values and are not touched. -/
def applyCartOp (w : BagScreenWorld) (op : CartOp) : BagScreenWorld :=
  match op with
  | .inc id => { w with cartItems := incrementQuantity id w.cartItems }
  | .dec id => { w with cartItems := decrementQuantity id w.cartItems }

/-- Apply a sequence of quantity mutations in order. -/
def applyCartOps (w : BagScreenWorld) (ops : List CartOp) : BagScreenWorld :=
  ops.foldl applyCartOp w

/-- Specification-side reading of the derived values: the subtotal is the sum
over all items of unit price times quantity, the item count is the sum of the
quantities, and the total is the subtotal plus the shipping cost. -/
def derivedOk (items : List LineItem) : Prop :=
  subtotal items = (items.map fun i => i.price * (i.quantity : ℚ)).sum
  ∧ totalItems items = (items.map fun i => i.quantity).sum
  ∧ total items = subtotal items + SHIPPING_COST

lemma foldl_add_map {M : Type} [AddCommMonoid M] (f : LineItem → M) :
    ∀ (l : List LineItem) (a : M), l.foldl (fun s i => s + f i) a = a + (l.map f).sum := by
  intro l
  induction l with
  | nil => intro a; simp
  | cons x xs ih => intro a; simp [ih, add_assoc]

lemma subtotal_eq_sum (items : List LineItem) :
    subtotal items = (items.map fun i => i.price * (i.quantity : ℚ)).sum := by
  have h := foldl_add_map (fun i => i.price * (i.quantity : ℚ)) items 0
  simpa [subtotal] using h

lemma totalItems_eq_sum (items : List LineItem) :
    totalItems items = (items.map fun i => i.quantity).sum := by
  have h := foldl_add_map (fun i => i.quantity) items 0
  simpa [totalItems] using h

lemma derivedOk_all (items : List LineItem) : derivedOk items :=
  ⟨subtotal_eq_sum items, totalItems_eq_sum items, rfl⟩

lemma one_le_quantity_incStep (id : Nat) (i : LineItem) (h : 1 ≤ i.quantity) :
    1 ≤ (incStep id i).quantity := by
  unfold incStep
  split_ifs with hc
  · show 1 ≤ i.quantity + 1
    omega
  · exact h

lemma one_le_quantity_decStep (id : Nat) (i : LineItem) (h : 1 ≤ i.quantity) :
    1 ≤ (decStep id i).quantity := by
  unfold decStep
  split_ifs with hc
  · show 1 ≤ i.quantity - 1
    omega
  · exact h

lemma decStep_eq_self_of_quantity_one (id : Nat) (i : LineItem) (h : i.quantity = 1) :
    decStep id i = i := by
  unfold decStep
  split_ifs with hc
  · exact absurd hc.2 (by omega)
  · rfl

lemma decStep_incStep (id : Nat) (i : LineItem) (h : 1 ≤ i.quantity) :
    decStep id (incStep id i) = i := by
  cases i with
  | mk iid nm dt pr qt =>
    simp only [LineItem.quantity] at h
    by_cases hid : iid = id
    · simp [incStep, decStep, hid]
      omega
    · simp [incStep, decStep, hid]

lemma map_eq_self_of_fixed (f : LineItem → LineItem) :
    ∀ (l : List LineItem), (∀ i ∈ l, f i = i) → l.map f = l := by
  intro l
  induction l with
  | nil => intro _; rfl
  | cons x xs ih =>
    intro h
    simp only [List.map_cons]
    rw [h x (by simp), ih (fun i hi => h i (by simp [hi]))]

lemma inv_incrementQuantity (id : Nat) (items : List LineItem)
    (h : ∀ i ∈ items, 1 ≤ i.quantity) : ∀ i ∈ incrementQuantity id items, 1 ≤ i.quantity := by
  intro i hi
  rcases List.mem_map.mp hi with ⟨j, hj, rfl⟩
  exact one_le_quantity_incStep id j (h j hj)

lemma inv_decrementQuantity (id : Nat) (items : List LineItem)
    (h : ∀ i ∈ items, 1 ≤ i.quantity) : ∀ i ∈ decrementQuantity id items, 1 ≤ i.quantity := by
  intro i hi
  rcases List.mem_map.mp hi with ⟨j, hj, rfl⟩
  exact one_le_quantity_decStep id j (h j hj)

lemma inv_applyCartOp (w : BagScreenWorld) (op : CartOp)
    (h : ∀ i ∈ w.cartItems, 1 ≤ i.quantity) :
    ∀ i ∈ (applyCartOp w op).cartItems, 1 ≤ i.quantity := by
  cases op with
  | inc id => exact inv_incrementQuantity id w.cartItems h
  | dec id => exact inv_decrementQuantity id w.cartItems h

lemma inv_applyCartOps (ops : List CartOp) :
    ∀ (w : BagScreenWorld), (∀ i ∈ w.cartItems, 1 ≤ i.quantity) →
    ∀ i ∈ (applyCartOps w ops).cartItems, 1 ≤ i.quantity := by
  induction ops with
  | nil => intro w h; exact h
  | cons op ops ih => intro w h; exact ih (applyCartOp w op) (inv_applyCartOp w op h)

lemma inFlight_applyCartOp (w : BagScreenWorld) (op : CartOp) :
    (applyCartOp w op).inFlight = w.inFlight := by
  cases op <;> rfl

lemma inFlight_applyCartOps (ops : List CartOp) :
    ∀ (w : BagScreenWorld), (applyCartOps w ops).inFlight = w.inFlight := by
  induction ops with
  | nil => intro w; rfl
  | cons op ops ih =>
    intro w
    rw [show applyCartOps w (op :: ops) = applyCartOps (applyCartOp w op) ops from rfl,
      ih, inFlight_applyCartOp]

/-- C1: for every cart state the derived subtotal is the sum over all items of
unit price times quantity, the derived item count is the sum of the quantities,
the derived total is the subtotal plus the fixed shipping cost of 15.00, and
the same equalities hold again for the carts produced by an increment, a
decrement, and a clear mutation. -/
theorem c1_derived_totals_correct (items : List LineItem) (id : Nat) :
    SHIPPING_COST = (15.00 : ℚ)
    ∧ derivedOk items
    ∧ derivedOk (incrementQuantity id items)
    ∧ derivedOk (decrementQuantity id items)
    ∧ derivedOk (clearCart items) :=
  ⟨by norm_num [SHIPPING_COST], derivedOk_all items, derivedOk_all _, derivedOk_all _,
    derivedOk_all _⟩

/-- C2: a checkout on the web platform submits nothing to the payment
capability, completes with a `Success` outcome carrying no transaction id, and
leaves the cart empty, for every prior cart, every capability-loaded flag and
every would-be capability resolution. -/
theorem c2_web_checkout_success (cart : List LineItem) (paypalLoaded : Bool)
    (res : Except String PayPalResponse) :
    completeCheckout .web paypalLoaded res cart = (.success none, [])
    ∧ callSubmissions .web paypalLoaded cart = [] :=
  ⟨rfl, rfl⟩

/-- C3: a native checkout with the payment capability not loaded produces the
`Unavailable` outcome and leaves the cart unchanged, with identical items and
hence identical derived subtotal, item count and total. -/
theorem c3_native_unavailable_unchanged (cart : List LineItem)
    (res : Except String PayPalResponse) :
    completeCheckout .native false res cart = (.unavailable, cart)
    ∧ (completeCheckout .native false res cart).2 = cart
    ∧ subtotal (completeCheckout .native false res cart).2 = subtotal cart
    ∧ totalItems (completeCheckout .native false res cart).2 = totalItems cart
    ∧ total (completeCheckout .native false res cart).2 = total cart :=
  ⟨rfl, rfl, rfl, rfl, rfl⟩

/-- C4: a native checkout with the capability loaded yields, on a resolved
submission, a `Success` outcome carrying the id taken from the nested response
and an empty cart; on a rejected submission, for any rejection reason, a
`Failure` with the generic message and the cart untouched. -/
theorem c4_native_loaded_outcomes (cart : List LineItem) (r : PayPalResponse) (e : String) :
    completeCheckout .native true (.ok r) cart = (.success (some r.response.id), [])
    ∧ completeCheckout .native true (.error e) cart = (.failure genericFailureMessage, cart) :=
  ⟨rfl, rfl⟩

/-- C5: on a cart whose quantities are all at least 1, increment adds exactly
one to every item matching the id, decrement is the identity on an item whose
quantity is 1, neither operation removes an item, both preserve the
quantities-at-least-1 invariant, and so does every sequence of such
operations. -/
theorem c5_quantity_floor_invariant (items : List LineItem) (id : Nat)
    (h : ∀ i ∈ items, 1 ≤ i.quantity) :
    (∀ i ∈ items, i.id = id → (incStep id i).quantity = i.quantity + 1)
    ∧ (∀ i ∈ items, i.quantity = 1 → decStep id i = i)
    ∧ (incrementQuantity id items).length = items.length
    ∧ (decrementQuantity id items).length = items.length
    ∧ (∀ i ∈ incrementQuantity id items, 1 ≤ i.quantity)
    ∧ (∀ i ∈ decrementQuantity id items, 1 ≤ i.quantity)
    ∧ (∀ ops : List CartOp, ∀ i ∈ (applyCartOps ⟨items, []⟩ ops).cartItems, 1 ≤ i.quantity) := by
  refine ⟨fun i _ hid => ?_, fun i _ hq => decStep_eq_self_of_quantity_one id i hq,
    List.length_map items (incStep id), List.length_map items (decStep id),
    inv_incrementQuantity id items h, inv_decrementQuantity id items h,
    fun ops => inv_applyCartOps ops ⟨items, []⟩ h⟩
  unfold incStep
  rw [if_pos hid]

/-- Witness for C5 at the seed cart and item id 2: the hypothesis holds and so
does the decrement part of the conclusion. -/
theorem c5_quantity_floor_invariant_witness :
    (∀ i ∈ seedCartItems, 1 ≤ i.quantity)
    ∧ (∀ i ∈ decrementQuantity 2 seedCartItems, 1 ≤ i.quantity) :=
  ⟨by decide, (c5_quantity_floor_invariant seedCartItems 2 (by decide)).2.2.2.2.2.1⟩

/-- C6: an increment or decrement with an id matching no item of the cart
returns the cart unchanged. -/
theorem c6_unknown_id_noop (items : List LineItem) (id : Nat)
    (h : ∀ i ∈ items, i.id ≠ id) :
    incrementQuantity id items = items ∧ decrementQuantity id items = items := by
  constructor
  · apply map_eq_self_of_fixed
    intro i hi
    unfold incStep
    rw [if_neg (h i hi)]
  · apply map_eq_self_of_fixed
    intro i hi
    unfold decStep
    rw [if_neg (fun hc => h i hi hc.1)]

/-- Witness for C6 at the seed cart and the absent id 99. -/
theorem c6_unknown_id_noop_witness :
    incrementQuantity 99 seedCartItems = seedCartItems
    ∧ decrementQuantity 99 seedCartItems = seedCartItems :=
  c6_unknown_id_noop seedCartItems 99 (by decide)

/-- C7: a native checkout with the capability loaded submits the payment data
built from the cart at that moment — amount the cart total fixed to two
decimals, currency the fixed code USD, description embedding the current item
count — and the pending submission is untouched by any sequence of quantity
mutations performed while it is in flight. -/
theorem c7_payment_snapshot (cart : List LineItem) (ops : List CartOp) :
    (applyCartOps (pressCheckout .native true ⟨cart, []⟩) ops).inFlight = [paymentData cart]
    ∧ (paymentData cart).amount = toFixed2 (total cart)
    ∧ (paymentData cart).currency = "USD"
    ∧ (paymentData cart).description = "Extreme Fit - " ++ toString (totalItems cart) ++ " items" := by
  refine ⟨?_, rfl, rfl, rfl⟩
  rw [inFlight_applyCartOps]
  rfl

/-- C8: on the seed cart with its flat shipping cost, the derived subtotal is
exactly 261.82, the total exactly 276.82, and the item count 6. -/
theorem c8_seed_cart_values :
    subtotal seedCartItems = (261.82 : ℚ)
    ∧ totalItems seedCartItems = 6
    ∧ total seedCartItems = (276.82 : ℚ) := by
  refine ⟨?_, by decide, ?_⟩
  · norm_num [subtotal, seedCartItems, List.foldl]
  · norm_num [total, subtotal, seedCartItems, SHIPPING_COST, List.foldl]

/-- C9 counterexample: pressing checkout twice on the seed cart on native with
the capability loaded, the second press while the first submission is still
pending, leaves two payment attempts in flight — so at most one attempt in
flight is not enforced and no re-entrancy guard exists (the control is not
disabled while an attempt is pending); moreover a web call submits to the
capability zero times, not exactly once. -/
theorem c9_counterexample_no_reentrancy_guard :
    (pressCheckout .native true (pressCheckout .native true ⟨seedCartItems, []⟩)).inFlight.length = 2
    ∧ checkoutControlDisabled (pressCheckout .native true ⟨seedCartItems, []⟩) = false
    ∧ callSubmissions .web true seedCartItems = [] :=
  ⟨rfl, rfl, rfl⟩

/-- C9 amended: the implementation has no re-entrancy guard — the checkout
control is never disabled and a press while an attempt is pending appends a
further submission — and each call of the checkout handler invokes the
capability at most once: exactly once in the native-loaded branch and never in
the web or capability-missing branches. -/
theorem c9_amended_submission_discipline (platform : Platform) (paypalLoaded : Bool)
    (cart : List LineItem) (w : BagScreenWorld) :
    checkoutControlDisabled w = false
    ∧ (callSubmissions platform paypalLoaded cart).length ≤ 1
    ∧ callSubmissions .native true cart = [paymentData cart]
    ∧ callSubmissions .web paypalLoaded cart = []
    ∧ callSubmissions .native false cart = []
    ∧ (pressCheckout .native true w).inFlight = w.inFlight ++ [paymentData w.cartItems] := by
  refine ⟨rfl, ?_, rfl, rfl, rfl, rfl⟩
  cases platform <;> cases paypalLoaded <;> simp [callSubmissions, initiateCheckout]

/-- C10: on a cart whose quantities are all at least 1 and which contains an
item with the given id, incrementing and then decrementing that id restores
the cart exactly. -/
theorem c10_increment_decrement_roundtrip (items : List LineItem) (id : Nat)
    (h1 : ∀ i ∈ items, 1 ≤ i.quantity) (h2 : ∃ i ∈ items, i.id = id) :
    decrementQuantity id (incrementQuantity id items) = items := by
  unfold incrementQuantity decrementQuantity
  rw [List.map_map]
  apply map_eq_self_of_fixed
  intro i hi
  simpa using decStep_incStep id i (h1 i hi)

/-- Witness for C10 at the seed cart and item id 1. -/
theorem c10_increment_decrement_roundtrip_witness :
    decrementQuantity 1 (incrementQuantity 1 seedCartItems) = seedCartItems :=
  c10_increment_decrement_roundtrip seedCartItems 1 (by decide) (by decide)

end ExtremeFit
